import Mathlib

/-!
Verification of the question-tag validator (src/app.py).

Strings are modelled as Lean `String` (a wrapper around `List Char`); the
Python string operations used by the program (strip, upper, isdigit,
startswith, the UUID regex) are embedded as executable functions on the
underlying character lists.
-/

namespace QuestionTagValidator

/-- ASCII whitespace characters removed by the Python str.strip call. -/
def isPySpace (c : Char) : Bool :=
  c == ' ' || c == '\t' || c == '\n' || c == '\r' || c == '\x0b' || c == '\x0c'

/-- Remove leading and trailing whitespace from a character list. -/
def stripChars (cs : List Char) : List Char :=
  ((cs.dropWhile isPySpace).reverse.dropWhile isPySpace).reverse

/-- Embedding of Python str.strip for the validator. -/
def pyStrip (s : String) : String :=
  ⟨stripChars s.data⟩

/-- Embedding of Python str.upper (ASCII uppercasing suffices here). -/
def pyUpper (s : String) : String :=
  ⟨s.data.map Char.toUpper⟩

/-- Embedding of Python str.isdigit: nonempty and every character a digit. -/
def pyIsDigit (s : String) : Bool :=
  !s.data.isEmpty && s.data.all Char.isDigit

/-- Embedding of Python str.startswith. -/
def strStarts (s p : String) : Bool :=
  p.data.isPrefixOf s.data

/-- Hexadecimal digit, as in the character class of UUID_REGEX. -/
def isHexChar (c : Char) : Bool :=
  c.isDigit || ('a' ≤ c && c ≤ 'f') || ('A' ≤ c && c ≤ 'F')

/-- Constraint UUID_REGEX places on the character at position i. -/
def uuidCharOk (i : Nat) (c : Char) : Bool :=
  if i == 8 || i == 13 || i == 18 || i == 23 then c == '-'
  else if i == 14 then '1' ≤ c && c ≤ '5'
  else if i == 19 then
    c == '8' || c == '9' || c == 'a' || c == 'b' || c == 'A' || c == 'B'
  else isHexChar c

/-- Full match of UUID_REGEX (8-4-4-4-12 hex groups, version nibble 1-5,
variant nibble 8/9/a/b, case-insensitive). -/
def uuidMatch (cs : List Char) : Bool :=
  cs.length == 36 && (List.range 36).all fun i => uuidCharOk i (cs.getD i ' ')

/-- The skip_values set of is_valid_tag. -/
def skip_values : List String :=
  ["MULTIPLE_CHOICE", "ENGLISH", "MARKDOWN", "TEXT", "TRUE", "FALSE"]

/-- The known_single_tags set of is_valid_tag. -/
def known_single_tags : List String :=
  ["NIAT", "POOL_1", "IN_OFFLINE_EXAM", "IS_PUBLIC", "IS_PRIVATE"]

/-- The known prefix list of is_valid_tag. -/
def knownPfxs : List String :=
  ["COURSE_", "MODULE_", "UNIT_", "SOURCE_", "DIFFICULTY_", "TOPIC_", "SUB_TOPIC_"]

/-- Embedding of is_valid_tag from src/app.py: trims the string, rejects
empty strings, noise words, pure digit strings and foreign UUIDs, and
accepts a UUID only when it equals the (truthy) owning question id. -/
def is_valid_tag (tag0 : String) (question_id : Option String) : Bool :=
  if pyStrip tag0 = "" then false
  else if skip_values.contains (pyUpper (pyStrip tag0)) then false
  else if pyIsDigit (pyStrip tag0) then false
  else if uuidMatch (pyStrip tag0).data then
    match question_id with
    | some q => (q != "") && (pyStrip tag0 == q)
    | none => false
  else
    (pyStrip tag0).data.contains '_' || known_single_tags.contains (pyStrip tag0) ||
      knownPfxs.any (fun p => strStarts (pyStrip tag0) p)

/-- Characters kept unchanged by the re.sub in format_tag_name
(the class [a-zA-Z0-9_]). -/
def isWordChar (c : Char) : Bool :=
  c.isAlpha || c.isDigit || c == '_'

/-- The substitution step of format_tag_name: every character outside
[a-zA-Z0-9_] becomes an underscore. -/
def substNonWord (c : Char) : Char :=
  if isWordChar c then c else '_'

/-- Collapse runs of underscores to a single underscore, as the second
re.sub of format_tag_name does. -/
def collapseU : List Char → List Char
  | [] => []
  | [c] => [c]
  | c :: d :: rest =>
    if c == '_' && d == '_' then collapseU (d :: rest)
    else c :: collapseU (d :: rest)

/-- Remove leading and trailing underscores, as str.strip with an
underscore argument does. -/
def stripUChars (cs : List Char) : List Char :=
  ((cs.dropWhile (· == '_')).reverse.dropWhile (· == '_')).reverse

/-- The character pipeline of format_tag_name after stripping: remove an
existing copy of the prefix, substitute non-word characters, collapse
runs of underscores and trim underscores at the ends. -/
def coreChars (cs p : List Char) : List Char :=
  stripUChars (collapseU
    ((if p.isPrefixOf cs then cs.drop p.length else cs).map substNonWord))

/-- Embedding of format_tag_name from src/app.py: strip, remove an
existing copy of the given tag prefix, turn the remaining characters
into word characters, collapse and trim underscores, and reattach the
prefix when anything is left. -/
def format_tag_name (tag_input : String) (pfx : String) : String :=
  if stripChars tag_input.data = [] then ""
  else if coreChars (stripChars tag_input.data) pfx.data = [] then ""
  else ⟨pfx.data ++ coreChars (stripChars tag_input.data) pfx.data⟩

/-- A question dictionary as consumed by validate_question_tags: both
keys may be absent. -/
structure Question where
  question_id : Option String
  tag_names : Option (List String)

/-- REQUIRED_TAGS COMMON from src/app.py. -/
def REQUIRED_COMMON : List String := ["NIAT", "IN_OFFLINE_EXAM", "POOL_1"]

/-- REQUIRED_TAGS DIFFICULTY from src/app.py. -/
def REQUIRED_DIFFICULTY : List String :=
  ["DIFFICULTY_EASY", "DIFFICULTY_MEDIUM", "DIFFICULTY_HARD"]

/-- Required-tag loop of validate_question_tags: one issue per absent
common tag, in the order of REQUIRED_COMMON. -/
def commonIssues (tags : List String) : List String :=
  REQUIRED_COMMON.filter (fun t => !tags.contains t)

/-- Difficulty check of validate_question_tags. -/
def difficultyIssues (tags : List String) : List String :=
  if REQUIRED_DIFFICULTY.any (fun t => tags.contains t) then []
  else ["One of: DIFFICULTY_EASY, DIFFICULTY_MEDIUM, DIFFICULTY_HARD"]

/-- Source check of validate_question_tags. -/
def sourceIssues (tags : List String) : List String :=
  if tags.any (fun t => strStarts t "SOURCE_") then []
  else ["SOURCE_* (any tag starting with SOURCE_)"]

/-- Question-id check of validate_question_tags. -/
def qidIssues (qid : String) (tags : List String) : List String :=
  if tags.contains qid then [] else ["Question ID tag: " ++ qid]

/-- Conditional visibility check of validate_question_tags: IS_PUBLIC is
required (and IS_PRIVATE forbidden) for MCQ and Code Analysis, the other
way round for Python Coding and Web Coding, nothing otherwise. -/
def visibilityIssues (module_type : String) (tags : List String) : List String :=
  if module_type = "MCQ" ∨ module_type = "Code Analysis" then
    (if !tags.contains "IS_PUBLIC" then ["IS_PUBLIC"] else []) ++
    (if tags.contains "IS_PRIVATE" then ["IS_PRIVATE (should not be present)"] else [])
  else if module_type = "Python Coding" ∨ module_type = "Web Coding" then
    (if !tags.contains "IS_PRIVATE" then ["IS_PRIVATE"] else []) ++
    (if tags.contains "IS_PUBLIC" then ["IS_PUBLIC (should not be present)"] else [])
  else []

/-- Course, module and unit checks of validate_question_tags, in the
order the code performs them; an empty configured value disables its
check (Python truthiness). -/
def optionalIssues (course_tag module_tag unit_tag : String)
    (tags : List String) : List String :=
  (if course_tag != "" && !tags.contains course_tag
    then ["Course tag: " ++ course_tag] else []) ++
  (if module_tag != "" && !tags.contains module_tag
    then ["Module tag: " ++ module_tag] else []) ++
  (if unit_tag != "" && !tags.contains unit_tag
    then ["Unit tag: " ++ unit_tag] else [])

/-- Concatenation of the per-tag issue lists over the iterated tag set,
mirroring the for loop of the topic check. -/
def appendMap (f : String → List String) : List String → List String
  | [] => []
  | t :: rest => f t ++ appendMap f rest

/-- Topic and sub-topic membership check of validate_question_tags: only
for MCQ and Code Analysis, per tag, against the globally fetched valid
sets. -/
def topicIssues (validTopic validSubTopic : List String)
    (module_type : String) (tags : List String) : List String :=
  if module_type = "MCQ" ∨ module_type = "Code Analysis" then
    appendMap (fun t =>
      (if strStarts t "TOPIC_" && !validTopic.contains t
        then ["Invalid TOPIC tag: " ++ t] else []) ++
      (if strStarts t "SUB_TOPIC_" && !validSubTopic.contains t
        then ["Invalid SUB_TOPIC tag: " ++ t] else [])) tags
  else []

/-- The question id read by validate_question_tags, with the Unknown
placeholder when the key is absent. -/
def qidOf (question : Question) : String :=
  question.question_id.getD "Unknown"

/-- The tag set built by the Python set constructor from the tag_names
value (empty when the key is absent), modelled as a deduplicated list. -/
def tagSetList (question : Question) : List String :=
  (question.tag_names.getD []).dedup

/-- Embedding of validate_question_tags from src/app.py. The valid topic
and sub-topic sets are the module-level globals fetched from the remote
catalog, passed here as parameters; the issue list is the sequence of
appends the code performs, in code order. -/
def validate_question_tags (validTopic validSubTopic : List String)
    (question : Question) (module_type unit_tag course_tag module_tag : String) :
    String × List String :=
  (qidOf question,
    commonIssues (tagSetList question) ++
    difficultyIssues (tagSetList question) ++
    sourceIssues (tagSetList question) ++
    qidIssues (qidOf question) (tagSetList question) ++
    visibilityIssues module_type (tagSetList question) ++
    optionalIssues course_tag module_tag unit_tag (tagSetList question) ++
    topicIssues validTopic validSubTopic module_type (tagSetList question))

/-- The issue order asserted by the specification: topic and sub-topic
membership before the optional course, module and unit checks. Written
from the words of the spec, for comparison with the code order. -/
def validateClaimedOrder (validTopic validSubTopic : List String)
    (question : Question) (module_type unit_tag course_tag module_tag : String) :
    String × List String :=
  (qidOf question,
    commonIssues (tagSetList question) ++
    difficultyIssues (tagSetList question) ++
    sourceIssues (tagSetList question) ++
    qidIssues (qidOf question) (tagSetList question) ++
    visibilityIssues module_type (tagSetList question) ++
    topicIssues validTopic validSubTopic module_type (tagSetList question) ++
    optionalIssues course_tag module_tag unit_tag (tagSetList question))

/-- A record of the ordered batch, as the sequence resolver sees it. -/
structure BatchRecord where
  question_id : String
deriving DecidableEq

/-- The expectations the sequence resolver hands to the rule engine. -/
structure SequenceContext where
  expected_question_tag : String
  expected_set_tag : String
deriving DecidableEq

/-- Modelled from the spec: the Sequence Numbering Resolver of section
4.2 is not present in src/app.py (no sequence logic exists in this
revision); this definition follows the spec words: disabled for n not
positive, anchor index is the greatest multiple of n at most the index,
the expected question tag is QUESTION_ plus the first 8 characters of
the anchor question id, and the expected set tag is SET_ plus the
1-based position in the group. -/
def resolve (batch : List BatchRecord) (index : Nat) (n : Int) :
    Option SequenceContext :=
  if n ≤ 0 then none
  else if (index / n.toNat) * n.toNat ≥ batch.length then none
  else
    some { expected_question_tag :=
             "QUESTION_" ++
               ⟨(batch.getD ((index / n.toNat) * n.toNat) ⟨""⟩).question_id.data.take 8⟩,
           expected_set_tag := "SET_" ++ toString (index % n.toNat + 1) }

/-! Concrete inputs used by the claim theorems below. -/

def c1Question : Question := ⟨some "q1", some ["IS_PUBLIC"]⟩

def c2Question : Question := ⟨some "q2", some ["TOPIC_X"]⟩

def c2WitnessQuestion : Question := ⟨some "q2w", some ["TOPIC_X", "SUB_TOPIC_Y"]⟩

def c3Question : Question :=
  ⟨some "33333333-aaaa-4bbb-8ccc-000000000001",
   some ["NIAT", "IN_OFFLINE_EXAM", "POOL_1", "DIFFICULTY_EASY", "SOURCE_GPT",
         "33333333-aaaa-4bbb-8ccc-000000000001", "IS_PUBLIC", "TOPIC_BAD"]⟩

def c4Question : Question := ⟨some "q4", some ["COURSE_PYTHON"]⟩

def demoBatch7 : List BatchRecord :=
  [⟨"q0"⟩, ⟨"q1"⟩, ⟨"q2"⟩, ⟨"q3"⟩, ⟨"q4"⟩, ⟨"q5"⟩, ⟨"q6"⟩]

def c6Question : Question := ⟨some "q6", some ["TOPIC_FOO", "IS_PUBLIC"]⟩

def sc1Question : Question :=
  ⟨some "11111111-2222-4333-8444-555555555555",
   some ["NIAT", "IN_OFFLINE_EXAM", "POOL_1", "DIFFICULTY_EASY", "SOURCE_GPT",
         "11111111-2222-4333-8444-555555555555", "IS_PUBLIC"]⟩

def c10Question : Question := ⟨none, some ["Unknown"]⟩

def c10WitnessQuestion : Question := ⟨none, none⟩

/-! Helper lemmas about the issue-list combinators. -/

theorem appendMap_eq_nil (f : String → List String) (l : List String)
    (h : ∀ t ∈ l, f t = []) : appendMap f l = [] := by
  induction l with
  | nil => rfl
  | cons t rest ih =>
    have hdef : appendMap f (t :: rest) = f t ++ appendMap f rest := rfl
    rw [hdef, h t (List.mem_cons_self t rest), List.nil_append]
    exact ih fun x hx => h x (List.mem_cons_of_mem t hx)

theorem mem_appendMap {f : String → List String} {t x : String} {l : List String}
    (ht : t ∈ l) (hx : x ∈ f t) : x ∈ appendMap f l := by
  induction l with
  | nil => cases ht
  | cons a rest ih =>
    have hdef : appendMap f (a :: rest) = f a ++ appendMap f rest := rfl
    rw [hdef]
    rcases List.mem_cons.mp ht with h | h
    · exact List.mem_append_left _ (h ▸ hx)
    · exact List.mem_append_right _ (ih h)

theorem exists_of_mem_appendMap {f : String → List String} {x : String}
    {l : List String} (hx : x ∈ appendMap f l) : ∃ t ∈ l, x ∈ f t := by
  induction l with
  | nil => cases hx
  | cons a rest ih =>
    have hdef : appendMap f (a :: rest) = f a ++ appendMap f rest := rfl
    rw [hdef] at hx
    rcases List.mem_append.mp hx with h | h
    · exact ⟨a, List.mem_cons_self a rest, h⟩
    · obtain ⟨t, ht, hft⟩ := ih h
      exact ⟨t, List.mem_cons_of_mem a ht, hft⟩

theorem contains_eq_false_of_not_mem {a : String} {l : List String}
    (h : a ∉ l) : l.contains a = false := by
  cases hc : l.contains a
  · rfl
  · exact absurd (List.elem_iff.mp hc) h

/-- The issue list produced by validate_question_tags, written as the
concatenation of the checks in the order the code performs them. -/
theorem validate_snd (vT vS : List String) (q : Question)
    (mt ut ct mtg : String) :
    (validate_question_tags vT vS q mt ut ct mtg).2 =
      commonIssues (tagSetList q) ++ difficultyIssues (tagSetList q) ++
      sourceIssues (tagSetList q) ++ qidIssues (qidOf q) (tagSetList q) ++
      visibilityIssues mt (tagSetList q) ++
      optionalIssues ct mtg ut (tagSetList q) ++
      topicIssues vT vS mt (tagSetList q) := rfl

/-! Claim C1. -/

/-- Claim C1, counterexample: for module_type SQL Coding the code runs no
visibility check at all, so a record without IS_PRIVATE and with
IS_PUBLIC gets neither the Missing IS_PRIVATE issue nor the Invalid
IS_PUBLIC issue the claim demands. -/
theorem c1_counterexample :
    "IS_PRIVATE" ∉ tagSetList c1Question ∧
    "IS_PUBLIC" ∈ tagSetList c1Question ∧
    "IS_PRIVATE" ∉ (validate_question_tags [] [] c1Question "SQL Coding" "" "" "").2 ∧
    "IS_PUBLIC (should not be present)" ∉
      (validate_question_tags [] [] c1Question "SQL Coding" "" "" "").2 := by
  decide

/-- Claim C1, amended: only for module_type Python Coding or Web Coding
does the rule engine append the Missing IS_PRIVATE issue when IS_PRIVATE
is absent and the Invalid IS_PUBLIC issue when IS_PUBLIC is present. -/
theorem c1_coding_visibility (vT vS : List String) (q : Question)
    (mt ut ct mtg : String) (hmt : mt = "Python Coding" ∨ mt = "Web Coding") :
    ((tagSetList q).contains "IS_PRIVATE" = false →
      "IS_PRIVATE" ∈ (validate_question_tags vT vS q mt ut ct mtg).2) ∧
    ((tagSetList q).contains "IS_PUBLIC" = true →
      "IS_PUBLIC (should not be present)" ∈
        (validate_question_tags vT vS q mt ut ct mtg).2) := by
  have hne : ¬ (mt = "MCQ" ∨ mt = "Code Analysis") := by
    rcases hmt with h | h <;> subst h <;> rintro (hc | hc) <;>
      exact absurd hc (by decide)
  constructor
  · intro habs
    have hv : "IS_PRIVATE" ∈ visibilityIssues mt (tagSetList q) := by
      unfold visibilityIssues
      rw [if_neg hne, if_pos hmt]
      refine List.mem_append_left _ ?_
      rw [habs]
      simp
    rw [validate_snd]
    simp only [List.mem_append]
    tauto
  · intro hpres
    have hv : "IS_PUBLIC (should not be present)" ∈
        visibilityIssues mt (tagSetList q) := by
      unfold visibilityIssues
      rw [if_neg hne, if_pos hmt]
      refine List.mem_append_right _ ?_
      rw [hpres]
      simp
    rw [validate_snd]
    simp only [List.mem_append]
    tauto

/-- Claim C1, witness for the amended theorem. -/
theorem c1_coding_visibility_witness :
    "IS_PRIVATE" ∈ (validate_question_tags [] [] c1Question "Python Coding" "" "" "").2 ∧
    "IS_PUBLIC (should not be present)" ∈
      (validate_question_tags [] [] c1Question "Python Coding" "" "" "").2 :=
  ⟨(c1_coding_visibility [] [] c1Question "Python Coding" "" "" "" (Or.inl rfl)).1
      (by decide),
   (c1_coding_visibility [] [] c1Question "Python Coding" "" "" "" (Or.inl rfl)).2
      (by decide)⟩

/-! Claim C2. -/

/-- Claim C2, counterexample: the topic membership check only runs for
MCQ and Code Analysis; for a Python Coding record an unknown TOPIC_ tag
produces no Invalid issue, contradicting the for-every-module_type
claim. -/
theorem c2_counterexample :
    strStarts "TOPIC_X" "TOPIC_" = true ∧
    "TOPIC_X" ∈ tagSetList c2Question ∧
    "Invalid TOPIC tag: TOPIC_X" ∉
      (validate_question_tags [] [] c2Question "Python Coding" "" "" "").2 := by
  decide

/-- Claim C2, amended: for module_type MCQ or Code Analysis, every tag of
the tag set starting with TOPIC_ that is not in the valid topic set gets
an Invalid TOPIC issue, and every tag starting with SUB_TOPIC_ not in
the valid sub-topic set gets an Invalid SUB_TOPIC issue; the check is
per-tag. -/
theorem c2_topic_membership (vT vS : List String) (q : Question)
    (mt ut ct mtg : String) (hmt : mt = "MCQ" ∨ mt = "Code Analysis")
    (t : String) (ht : t ∈ tagSetList q) :
    (strStarts t "TOPIC_" = true → vT.contains t = false →
      ("Invalid TOPIC tag: " ++ t) ∈
        (validate_question_tags vT vS q mt ut ct mtg).2) ∧
    (strStarts t "SUB_TOPIC_" = true → vS.contains t = false →
      ("Invalid SUB_TOPIC tag: " ++ t) ∈
        (validate_question_tags vT vS q mt ut ct mtg).2) := by
  constructor
  · intro hs hc
    have hmem : ("Invalid TOPIC tag: " ++ t) ∈
        topicIssues vT vS mt (tagSetList q) := by
      unfold topicIssues
      rw [if_pos hmt]
      refine mem_appendMap ht ?_
      refine List.mem_append_left _ ?_
      rw [hs, hc]
      simp
    rw [validate_snd]
    simp only [List.mem_append]
    tauto
  · intro hs hc
    have hmem : ("Invalid SUB_TOPIC tag: " ++ t) ∈
        topicIssues vT vS mt (tagSetList q) := by
      unfold topicIssues
      rw [if_pos hmt]
      refine mem_appendMap ht ?_
      refine List.mem_append_right _ ?_
      rw [hs, hc]
      simp
    rw [validate_snd]
    simp only [List.mem_append]
    tauto

/-- Claim C2, witness: one MCQ record accumulates both an Invalid TOPIC
and an Invalid SUB_TOPIC issue. -/
theorem c2_topic_membership_witness :
    "Invalid TOPIC tag: TOPIC_X" ∈
      (validate_question_tags [] [] c2WitnessQuestion "MCQ" "" "" "").2 ∧
    "Invalid SUB_TOPIC tag: SUB_TOPIC_Y" ∈
      (validate_question_tags [] [] c2WitnessQuestion "MCQ" "" "" "").2 := by
  constructor
  · have h := (c2_topic_membership [] [] c2WitnessQuestion "MCQ" "" "" ""
      (Or.inl rfl) "TOPIC_X" (by decide)).1 (by decide) (by decide)
    have he : ("Invalid TOPIC tag: " ++ "TOPIC_X" : String) =
        "Invalid TOPIC tag: TOPIC_X" := by decide
    exact he ▸ h
  · have h := (c2_topic_membership [] [] c2WitnessQuestion "MCQ" "" "" ""
      (Or.inl rfl) "SUB_TOPIC_Y" (by decide)).2 (by decide) (by decide)
    have he : ("Invalid SUB_TOPIC tag: " ++ "SUB_TOPIC_Y" : String) =
        "Invalid SUB_TOPIC tag: SUB_TOPIC_Y" := by decide
    exact he ▸ h

/-! Claim C3. -/

/-- Claim C3, counterexample: the code emits the missing course issue
before the invalid topic issue, while the claimed order puts the topic
and sub-topic check before the optional-tag checks. -/
theorem c3_counterexample :
    (validate_question_tags [] [] c3Question "MCQ" "" "COURSE_X" "").2 ≠
      (validateClaimedOrder [] [] c3Question "MCQ" "" "COURSE_X" "").2 := by
  decide

/-- Claim C3, amended: all checks run unconditionally against the full
tag set, and the issue list is the concatenation, in this order, of the
common, difficulty, source, identity, visibility, optional
(course, module, unit) and topic and sub-topic checks. -/
theorem c3_check_order (vT vS : List String) (q : Question)
    (mt ut ct mtg : String) :
    (validate_question_tags vT vS q mt ut ct mtg).2 =
      commonIssues (tagSetList q) ++ difficultyIssues (tagSetList q) ++
      sourceIssues (tagSetList q) ++ qidIssues (qidOf q) (tagSetList q) ++
      visibilityIssues mt (tagSetList q) ++
      optionalIssues ct mtg ut (tagSetList q) ++
      topicIssues vT vS mt (tagSetList q) := rfl

/-! Claim C4. -/

theorem mem_ite_singleton {c : Prop} [Decidable c] {i s : String}
    (h : i ∈ if c then [s] else []) : i = s := by
  split at h
  · simpa using h
  · simp at h

theorem mem_ite_singleton2 {c : Prop} [Decidable c] {i s : String}
    (h : i ∈ if c then [] else [s]) : i = s := by
  split at h
  · simp at h
  · simpa using h

/-- Every issue the rule engine produces begins with a character other
than F: the engine has no message template starting with Found. -/
theorem issue_head_not_F (vT vS : List String) (q : Question)
    (mt ut ct mtg : String) :
    ∀ i ∈ (validate_question_tags vT vS q mt ut ct mtg).2,
      i.data.head? ≠ some 'F' := by
  intro i hi
  rw [validate_snd] at hi
  simp only [List.mem_append] at hi
  rcases hi with ((((((h | h) | h) | h) | h) | h) | h)
  · have hm : i ∈ REQUIRED_COMMON := (List.mem_filter.mp h).1
    have hi3 : i = "NIAT" ∨ i = "IN_OFFLINE_EXAM" ∨ i = "POOL_1" := by
      simpa [REQUIRED_COMMON] using hm
    rcases hi3 with rfl | rfl | rfl <;> decide
  · unfold difficultyIssues at h
    have := mem_ite_singleton2 h
    subst this
    decide
  · unfold sourceIssues at h
    have := mem_ite_singleton2 h
    subst this
    decide
  · unfold qidIssues at h
    have := mem_ite_singleton2 h
    subst this
    have hh : ("Question ID tag: " ++ qidOf q).data.head? = some 'Q' := by
      rw [String.data_append]
      rfl
    rw [hh]
    decide
  · unfold visibilityIssues at h
    split at h
    · rcases List.mem_append.mp h with h2 | h2
      · have := mem_ite_singleton h2
        subst this
        decide
      · have := mem_ite_singleton h2
        subst this
        decide
    · split at h
      · rcases List.mem_append.mp h with h2 | h2
        · have := mem_ite_singleton h2
          subst this
          decide
        · have := mem_ite_singleton h2
          subst this
          decide
      · simp at h
  · unfold optionalIssues at h
    rcases List.mem_append.mp h with h2 | h2
    · rcases List.mem_append.mp h2 with h3 | h3
      · have := mem_ite_singleton h3
        subst this
        have hh : ("Course tag: " ++ ct).data.head? = some 'C' := by
          rw [String.data_append]
          rfl
        rw [hh]
        decide
      · have := mem_ite_singleton h3
        subst this
        have hh : ("Module tag: " ++ mtg).data.head? = some 'M' := by
          rw [String.data_append]
          rfl
        rw [hh]
        decide
    · have := mem_ite_singleton h2
      subst this
      have hh : ("Unit tag: " ++ ut).data.head? = some 'U' := by
        rw [String.data_append]
        rfl
      rw [hh]
      decide
  · unfold topicIssues at h
    split at h
    · obtain ⟨t, ht, hft⟩ := exists_of_mem_appendMap h
      rcases List.mem_append.mp hft with h2 | h2
      · have := mem_ite_singleton h2
        subst this
        have hh : ("Invalid TOPIC tag: " ++ t).data.head? = some 'I' := by
          rw [String.data_append]
          rfl
        rw [hh]
        decide
      · have := mem_ite_singleton h2
        subst this
        have hh : ("Invalid SUB_TOPIC tag: " ++ t).data.head? = some 'I' := by
          rw [String.data_append]
          rfl
        rw [hh]
        decide
    · simp at h

/-- Claim C4, counterexample: a record carrying COURSE_PYTHON while the
configured course tag is empty yields no Found Optional issue; the code
has no optional-tag-surprise check at all. -/
theorem c4_counterexample :
    "COURSE_PYTHON" ∈ tagSetList c4Question ∧
    "Found Optional: COURSE_PYTHON" ∉
      (validate_question_tags [] [] c4Question "MCQ" "" "" "").2 := by
  decide

/-- Claim C4, amended: the rule engine never reports a Found Optional
issue; with an empty configured value the corresponding check is simply
skipped and optional-prefixed tags present in the tag set are ignored. -/
theorem c4_no_found_optional (vT vS : List String) (q : Question)
    (mt ut ct mtg : String) (t : String) :
    ("Found Optional: " ++ t) ∉
      (validate_question_tags vT vS q mt ut ct mtg).2 := by
  intro hmem
  have hne := issue_head_not_F vT vS q mt ut ct mtg _ hmem
  apply hne
  rw [String.data_append]
  rfl

/-- Claim C4, witness for the amended theorem. -/
theorem c4_no_found_optional_witness :
    ("Found Optional: " ++ "COURSE_PYTHON") ∉
      (validate_question_tags [] [] c4Question "MCQ" "" "" "").2 :=
  c4_no_found_optional [] [] c4Question "MCQ" "" "" "" "COURSE_PYTHON"

/-! Claim C5. -/

/-- Claim C5: the sequence resolver returns none for non-positive group
size, otherwise anchors at the greatest multiple of n at most the index
and produces the QUESTION_ tag from the first 8 characters of the anchor
id and the SET_ tag from the 1-based position; for n=3 and index=4 the
anchor index is 3 and the set tag is SET_2. -/
theorem c5_sequence_resolver (batch : List BatchRecord) (index : Nat) (n : Int) :
    (n ≤ 0 → resolve batch index n = none) ∧
    (0 < n → (index / n.toNat) * n.toNat < batch.length →
      resolve batch index n =
        some ⟨"QUESTION_" ++
                ⟨(batch.getD ((index / n.toNat) * n.toNat) ⟨""⟩).question_id.data.take 8⟩,
              "SET_" ++ toString (index % n.toNat + 1)⟩) ∧
    (resolve demoBatch7 4 3 = some ⟨"QUESTION_q3", "SET_2"⟩ ∧
      (4 / 3) * 3 = 3 ∧ 4 % 3 + 1 = 2) := by
  refine ⟨fun h => ?_, fun h1 h2 => ?_, by decide, by decide, by decide⟩
  · unfold resolve
    rw [if_pos h]
  · unfold resolve
    rw [if_neg (by omega), if_neg (by omega)]

/-- Claim C5, witness. -/
theorem c5_sequence_resolver_witness :
    resolve demoBatch7 0 (-2) = none ∧
    resolve demoBatch7 4 3 = some ⟨"QUESTION_q3", "SET_2"⟩ := by
  constructor
  · exact (c5_sequence_resolver demoBatch7 0 (-2)).1 (by decide)
  · exact ((c5_sequence_resolver demoBatch7 4 3).2.1 (by decide)
      (by decide)).trans (by decide)

/-! Claim C6. -/

/-- Claim C6, counterexample: for an unrecognized module_type the topic
check is skipped entirely, so a TOPIC_ tag is not reported Invalid,
contrary to the claim. -/
theorem c6_counterexample :
    strStarts "TOPIC_FOO" "TOPIC_" = true ∧
    "TOPIC_FOO" ∈ tagSetList c6Question ∧
    "Invalid TOPIC tag: TOPIC_FOO" ∉
      (validate_question_tags [] [] c6Question "Unknown" "" "" "").2 := by
  decide

/-- Claim C6, amended: for a module_type outside MCQ, Code Analysis,
Python Coding and Web Coding, both the visibility check and the topic
and sub-topic check are skipped, and the issue list reduces to the
common, difficulty, source, identity and optional checks. -/
theorem c6_unknown_module (vT vS : List String) (q : Question)
    (mt ut ct mtg : String)
    (h1 : mt ≠ "MCQ") (h2 : mt ≠ "Code Analysis")
    (h3 : mt ≠ "Python Coding") (h4 : mt ≠ "Web Coding") :
    visibilityIssues mt (tagSetList q) = [] ∧
    topicIssues vT vS mt (tagSetList q) = [] ∧
    (validate_question_tags vT vS q mt ut ct mtg).2 =
      commonIssues (tagSetList q) ++ difficultyIssues (tagSetList q) ++
      sourceIssues (tagSetList q) ++ qidIssues (qidOf q) (tagSetList q) ++
      optionalIssues ct mtg ut (tagSetList q) := by
  have hv : visibilityIssues mt (tagSetList q) = [] := by
    unfold visibilityIssues
    rw [if_neg (by tauto), if_neg (by tauto)]
  have htp : topicIssues vT vS mt (tagSetList q) = [] := by
    unfold topicIssues
    rw [if_neg (by tauto)]
  refine ⟨hv, htp, ?_⟩
  rw [validate_snd, hv, htp]
  simp

/-- Claim C6, witness for the amended theorem. -/
theorem c6_unknown_module_witness :
    visibilityIssues "Unknown" (tagSetList c6Question) = [] ∧
    topicIssues [] [] "Unknown" (tagSetList c6Question) = [] := by
  have h := c6_unknown_module [] [] c6Question "Unknown" "" "" ""
    (by decide) (by decide) (by decide) (by decide)
  exact ⟨h.1, h.2.1⟩

/-! Claim C8. -/

/-- Claim C8: the scenario-1 record, validated as MCQ with no optional
configuration, passes with an empty issue list, whatever the valid topic
sets are. -/
theorem c8_scenario1 (vT vS : List String) :
    validate_question_tags vT vS sc1Question "MCQ" "" "" "" =
      ("11111111-2222-4333-8444-555555555555", []) := by
  have htopic : topicIssues vT vS "MCQ" (tagSetList sc1Question) = [] := by
    unfold topicIssues
    rw [if_pos (Or.inl rfl)]
    apply appendMap_eq_nil
    intro t ht
    fin_cases ht <;> rfl
  have h2 : (validate_question_tags vT vS sc1Question "MCQ" "" "" "").2 = [] := by
    rw [validate_snd, htopic,
        show commonIssues (tagSetList sc1Question) = [] from by decide,
        show difficultyIssues (tagSetList sc1Question) = [] from by decide,
        show sourceIssues (tagSetList sc1Question) = [] from by decide,
        show qidIssues (qidOf sc1Question) (tagSetList sc1Question) = [] from by decide,
        show visibilityIssues "MCQ" (tagSetList sc1Question) = [] from by decide,
        show optionalIssues "" "" "" (tagSetList sc1Question) = [] from by decide]
    rfl
  rw [Prod.ext_iff]
  exact ⟨rfl, h2⟩

/-! Claim C10. -/

/-- Claim C10, counterexample: with the question_id key absent the
placeholder Unknown is used, but when the literal tag Unknown happens to
be in the tag set no missing Question ID issue is reported, contrary to
the parenthetical of the claim. -/
theorem c10_counterexample :
    c10Question.question_id = none ∧
    (validate_question_tags [] [] c10Question "MCQ" "" "" "").1 = "Unknown" ∧
    "Question ID tag: Unknown" ∉
      (validate_question_tags [] [] c10Question "MCQ" "" "" "").2 := by
  decide

/-- Claim C10, amended: validate_question_tags is total; an absent
question_id key yields the placeholder Unknown as the returned id, which
is reported as a missing Question ID tag whenever Unknown is not itself
in the tag set; an absent tag_names key behaves as the empty tag set and
every required tag is reported missing. -/
theorem c10_missing_keys (vT vS : List String) (q : Question)
    (mt ut ct mtg : String) :
    (q.question_id = none →
      (validate_question_tags vT vS q mt ut ct mtg).1 = "Unknown" ∧
      ("Unknown" ∉ q.tag_names.getD [] →
        "Question ID tag: Unknown" ∈
          (validate_question_tags vT vS q mt ut ct mtg).2)) ∧
    (q.tag_names = none →
      (∀ t ∈ REQUIRED_COMMON, t ∈ (validate_question_tags vT vS q mt ut ct mtg).2) ∧
      "One of: DIFFICULTY_EASY, DIFFICULTY_MEDIUM, DIFFICULTY_HARD" ∈
        (validate_question_tags vT vS q mt ut ct mtg).2 ∧
      "SOURCE_* (any tag starting with SOURCE_)" ∈
        (validate_question_tags vT vS q mt ut ct mtg).2) := by
  constructor
  · intro hqid
    have hq : qidOf q = "Unknown" := by
      unfold qidOf
      rw [hqid]
      rfl
    constructor
    · exact hq
    · intro habs
      have habs2 : "Unknown" ∉ tagSetList q := by
        unfold tagSetList
        rw [List.mem_dedup]
        exact habs
      have hc := contains_eq_false_of_not_mem habs2
      have hmem : ("Question ID tag: " ++ "Unknown") ∈
          qidIssues (qidOf q) (tagSetList q) := by
        unfold qidIssues
        rw [hq, hc]
        simp
      have he : ("Question ID tag: " ++ "Unknown" : String) =
          "Question ID tag: Unknown" := by decide
      rw [validate_snd]
      simp only [List.mem_append]
      rw [he] at hmem
      tauto
  · intro htn
    have htags : tagSetList q = [] := by
      unfold tagSetList
      rw [htn]
      rfl
    refine ⟨?_, ?_, ?_⟩
    · intro t ht
      have hcm : t ∈ commonIssues (tagSetList q) := by
        rw [htags]
        rw [show commonIssues [] = REQUIRED_COMMON from by decide]
        exact ht
      rw [validate_snd]
      simp only [List.mem_append]
      tauto
    · have hd : "One of: DIFFICULTY_EASY, DIFFICULTY_MEDIUM, DIFFICULTY_HARD" ∈
          difficultyIssues (tagSetList q) := by
        rw [htags]
        decide
      rw [validate_snd]
      simp only [List.mem_append]
      tauto
    · have hs : "SOURCE_* (any tag starting with SOURCE_)" ∈
          sourceIssues (tagSetList q) := by
        rw [htags]
        decide
      rw [validate_snd]
      simp only [List.mem_append]
      tauto

/-- Claim C10, witness for the amended theorem. -/
theorem c10_missing_keys_witness :
    (validate_question_tags [] [] c10WitnessQuestion "MCQ" "" "" "").1 = "Unknown" ∧
    "Question ID tag: Unknown" ∈
      (validate_question_tags [] [] c10WitnessQuestion "MCQ" "" "" "").2 ∧
    "NIAT" ∈ (validate_question_tags [] [] c10WitnessQuestion "MCQ" "" "" "").2 := by
  refine ⟨?_, ?_, ?_⟩
  · exact ((c10_missing_keys [] [] c10WitnessQuestion "MCQ" "" "" "").1 rfl).1
  · exact ((c10_missing_keys [] [] c10WitnessQuestion "MCQ" "" "" "").1 rfl).2
      (by decide)
  · exact ((c10_missing_keys [] [] c10WitnessQuestion "MCQ" "" "" "").2 rfl).1
      "NIAT" (by decide)

/-! Claim C7. -/

theorem uuidMatch_length {cs : List Char} (h : uuidMatch cs = true) :
    cs.length = 36 := by
  unfold uuidMatch at h
  have h2 := (Bool.and_eq_true _ _).mp h
  simpa using h2.1

theorem uuidMatch_charOk {cs : List Char} (h : uuidMatch cs = true)
    {i : Nat} (hi : i < 36) : uuidCharOk i (cs.getD i ' ') = true := by
  unfold uuidMatch at h
  have h2 := (Bool.and_eq_true _ _).mp h
  have h3 := List.all_eq_true.mp h2.2
  exact h3 i (List.mem_range.mpr hi)

theorem getD_mem_of_lt {cs : List Char} {i : Nat} (hi : i < cs.length) :
    cs.getD i ' ' ∈ cs := by
  rw [List.getD_eq_getElem?_getD, List.getElem?_eq_getElem hi, Option.getD_some]
  exact List.getElem_mem hi

theorem isPySpace_eq_chars {c : Char} (h : isPySpace c = true) :
    c = ' ' ∨ c = '\t' ∨ c = '\n' ∨ c = '\r' ∨ c = '\x0b' ∨ c = '\x0c' := by
  have h2 : ((((c = ' ' ∨ c = '\t') ∨ c = '\n') ∨ c = '\r') ∨ c = '\x0b') ∨
      c = '\x0c' := by
    simpa [isPySpace] using h
  tauto

theorem isHexChar_not_space {c : Char} (h : isHexChar c = true) :
    isPySpace c = false := by
  cases hsp : isPySpace c
  · rfl
  · rcases isPySpace_eq_chars hsp with rfl | rfl | rfl | rfl | rfl | rfl <;>
      exact absurd h (by decide)

theorem stripChars_eq_of_ends {cs : List Char} (hne : cs ≠ [])
    (h1 : ∀ b, cs.head? = some b → isPySpace b = false)
    (h2 : ∀ b, cs.getLast? = some b → isPySpace b = false) :
    stripChars cs = cs := by
  unfold stripChars
  match cs, hne with
  | a :: rest, _ =>
    have ha : isPySpace a = false := h1 a rfl
    rw [List.dropWhile_cons_of_neg (by simp [ha])]
    rcases hr : (a :: rest).reverse with _ | ⟨b, r2⟩
    · exact absurd (List.reverse_eq_nil_iff.mp hr) (by simp)
    · have hb : (a :: rest).getLast? = some b := by
        rw [← List.head?_reverse, hr]
        rfl
      have hbs : isPySpace b = false := h2 b hb
      rw [List.dropWhile_cons_of_neg (by simp [hbs]), ← hr, List.reverse_reverse]

theorem uuid_pyStrip {s : String} (h : uuidMatch s.data = true) :
    pyStrip s = s := by
  have hlen := uuidMatch_length h
  have hne : s.data ≠ [] := by
    intro hnil
    rw [hnil] at hlen
    simp at hlen
  apply String.ext
  show stripChars s.data = s.data
  apply stripChars_eq_of_ends hne
  · intro b hb
    have h0 : uuidCharOk 0 (s.data.getD 0 ' ') = true := uuidMatch_charOk h (by omega)
    have hb0 : s.data[0]? = some b := by
      rw [← List.head?_eq_getElem?]
      exact hb
    rw [List.getD_eq_getElem?_getD, hb0, Option.getD_some] at h0
    exact isHexChar_not_space h0
  · intro b hb
    have h35 : uuidCharOk 35 (s.data.getD 35 ' ') = true := uuidMatch_charOk h (by omega)
    have hb35 : s.data[35]? = some b := by
      rw [← hb, List.getLast?_eq_getElem?, hlen]
    rw [List.getD_eq_getElem?_getD, hb35, Option.getD_some] at h35
    exact isHexChar_not_space h35

theorem uuid_ne_empty {s : String} (h : uuidMatch s.data = true) : s ≠ "" := by
  intro he
  have hlen := uuidMatch_length h
  subst he
  exact absurd hlen (by decide)

theorem uuid_skip_false {s : String} (h : uuidMatch s.data = true) :
    skip_values.contains (pyUpper s) = false := by
  have hlen := uuidMatch_length h
  apply contains_eq_false_of_not_mem
  intro hmem
  have hup : (pyUpper s).data.length = 36 := by
    show (s.data.map Char.toUpper).length = 36
    simpa using hlen
  rcases (by simpa [skip_values] using hmem :
      pyUpper s = "MULTIPLE_CHOICE" ∨ pyUpper s = "ENGLISH" ∨
      pyUpper s = "MARKDOWN" ∨ pyUpper s = "TEXT" ∨ pyUpper s = "TRUE" ∨
      pyUpper s = "FALSE") with h1 | h1 | h1 | h1 | h1 | h1 <;>
    (rw [h1] at hup; exact absurd hup (by decide))

theorem uuid_not_digits {s : String} (h : uuidMatch s.data = true) :
    pyIsDigit s = false := by
  have hlen := uuidMatch_length h
  have h8 : uuidCharOk 8 (s.data.getD 8 ' ') = true := uuidMatch_charOk h (by omega)
  have hdash : s.data.getD 8 ' ' = '-' := by
    have hq : (s.data.getD 8 ' ' == '-') = true := h8
    simpa using hq
  have hmem : '-' ∈ s.data := by
    rw [← hdash]
    exact getD_mem_of_lt (by omega)
  have hall : s.data.all Char.isDigit = false := by
    cases hall : s.data.all Char.isDigit
    · rfl
    · have := List.all_eq_true.mp hall '-' hmem
      exact absurd this (by decide)
  simp [pyIsDigit, hall]

/-- Claim C7: for a string of canonical UUID shape, is_valid_tag accepts
exactly when the owning question id is supplied and equals the string;
with no question id it always rejects. -/
theorem c7_uuid_identity (s q : String) (h : uuidMatch s.data = true) :
    (is_valid_tag s (some q) = true ↔ s = q) ∧ is_valid_tag s none = false := by
  have hstrip := uuid_pyStrip h
  have hne := uuid_ne_empty h
  have hskip := uuid_skip_false h
  have hdig := uuid_not_digits h
  constructor
  · unfold is_valid_tag
    rw [hstrip, if_neg hne, if_neg (by rw [hskip]; exact Bool.false_ne_true),
        if_neg (by rw [hdig]; exact Bool.false_ne_true), if_pos h]
    constructor
    · intro hb
      have h2 := (Bool.and_eq_true _ _).mp hb
      exact beq_iff_eq.mp h2.2
    · intro heq
      subst heq
      have hq : (s != "") = true := by simpa using hne
      simp [hq]
  · unfold is_valid_tag
    rw [hstrip, if_neg hne, if_neg (by rw [hskip]; exact Bool.false_ne_true),
        if_neg (by rw [hdig]; exact Bool.false_ne_true), if_pos h]

/-- Claim C7, witness. -/
theorem c7_uuid_identity_witness :
    is_valid_tag "11111111-2222-4333-8444-555555555555"
      (some "11111111-2222-4333-8444-555555555555") = true ∧
    is_valid_tag "22222222-2222-4333-8444-555555555555"
      (some "11111111-2222-4333-8444-555555555555") = false := by
  constructor
  · exact (c7_uuid_identity "11111111-2222-4333-8444-555555555555"
      "11111111-2222-4333-8444-555555555555" (by decide)).1.mpr rfl
  · have h := (c7_uuid_identity "22222222-2222-4333-8444-555555555555"
      "11111111-2222-4333-8444-555555555555" (by decide)).1
    cases hb : is_valid_tag "22222222-2222-4333-8444-555555555555"
      (some "11111111-2222-4333-8444-555555555555")
    · rfl
    · exact absurd (h.mp hb) (by decide)

/-! Claim C9. -/

theorem format_tag_name_shape (raw p : String)
    (hne : format_tag_name raw p ≠ "") :
    format_tag_name raw p = ⟨p.data ++ coreChars (stripChars raw.data) p.data⟩ ∧
      coreChars (stripChars raw.data) p.data ≠ [] := by
  by_cases h1 : stripChars raw.data = []
  · exact absurd (by unfold format_tag_name; rw [if_pos h1]) hne
  · by_cases h2 : coreChars (stripChars raw.data) p.data = []
    · exact absurd (by unfold format_tag_name; rw [if_neg h1, if_pos h2]) hne
    · exact ⟨by unfold format_tag_name; rw [if_neg h1, if_neg h2], h2⟩

theorem collapseU_subset : ∀ (l : List Char), ∀ c ∈ collapseU l, c ∈ l := by
  intro l
  induction l with
  | nil => intro c hc; exact absurd hc (List.not_mem_nil c)
  | cons a rest ih =>
    cases rest with
    | nil =>
      intro c hc
      exact (show collapseU [a] = [a] from rfl) ▸ hc
    | cons b r2 =>
      intro c hc
      have hdef : collapseU (a :: b :: r2) =
          if a == '_' && b == '_' then collapseU (b :: r2)
          else a :: collapseU (b :: r2) := rfl
      rw [hdef] at hc
      split at hc
      · exact List.mem_cons_of_mem a (ih c hc)
      · rcases List.mem_cons.mp hc with rfl | hc2
        · exact List.mem_cons_self _ _
        · exact List.mem_cons_of_mem a (ih c hc2)

theorem stripUChars_subset (l : List Char) : ∀ c ∈ stripUChars l, c ∈ l := by
  intro c hc
  unfold stripUChars at hc
  have h1 := List.mem_reverse.mp hc
  have h2 : c ∈ (l.dropWhile (· == '_')).reverse :=
    (List.dropWhile_sublist _).subset h1
  have h3 : c ∈ l.dropWhile (· == '_') := List.mem_reverse.mp h2
  exact (List.dropWhile_sublist _).subset h3

theorem substNonWord_word (c : Char) : isWordChar (substNonWord c) = true := by
  unfold substNonWord
  split
  · assumption
  · decide

theorem coreChars_words (cs p : List Char) :
    ∀ c ∈ coreChars cs p, isWordChar c = true := by
  intro c hc
  unfold coreChars at hc
  have h1 := stripUChars_subset _ c hc
  have h2 := collapseU_subset _ c h1
  obtain ⟨c0, _, rfl⟩ := List.mem_map.mp h2
  exact substNonWord_word c0

theorem isWordChar_not_space {c : Char} (h : isWordChar c = true) :
    isPySpace c = false := by
  cases hsp : isPySpace c
  · rfl
  · rcases isPySpace_eq_chars hsp with rfl | rfl | rfl | rfl | rfl | rfl <;>
      exact absurd h (by decide)

theorem isWordChar_ne_dash {c : Char} (h : isWordChar c = true) : c ≠ '-' := by
  intro he
  subst he
  exact absurd h (by decide)

theorem stripChars_eq_of_all {cs : List Char} (hne : cs ≠ [])
    (h : ∀ c ∈ cs, isPySpace c = false) : stripChars cs = cs := by
  apply stripChars_eq_of_ends hne
  · intro b hb
    exact h b (List.mem_of_mem_head? (by simp [hb]))
  · intro b hb
    exact h b (List.mem_of_getLast?_eq_some hb)

theorem uuidMatch_eq_false_of_no_dash {cs : List Char}
    (h : ∀ c ∈ cs, c ≠ '-') : uuidMatch cs = false := by
  cases hm : uuidMatch cs
  · rfl
  · have hlen := uuidMatch_length hm
    have h8 : uuidCharOk 8 (cs.getD 8 ' ') = true := uuidMatch_charOk hm (by omega)
    have hq : (cs.getD 8 ' ' == '-') = true := h8
    have hdash : cs.getD 8 ' ' = '-' := by simpa using hq
    exact absurd hdash (h _ (getD_mem_of_lt (by omega)))

/-- Core of the round-trip argument: a string made of a known prefix and
a nonempty block of word characters is accepted by is_valid_tag. -/
theorem roundtrip_core (p : String) (f3 : List Char) (_hf3 : f3 ≠ [])
    (hwords : ∀ c ∈ f3, isWordChar c = true)
    (hpchars : ∀ c ∈ p.data, isWordChar c = true)
    (hu : '_' ∈ p.data)
    (hpne : p.data ≠ [])
    (hskip : skip_values.contains (pyUpper ⟨p.data ++ f3⟩) = false)
    (hdig : pyIsDigit ⟨p.data ++ f3⟩ = false) :
    is_valid_tag ⟨p.data ++ f3⟩ none = true := by
  have hall : ∀ c ∈ p.data ++ f3, isWordChar c = true := by
    intro c hc
    rcases List.mem_append.mp hc with h | h
    · exact hpchars c h
    · exact hwords c h
  have happne : p.data ++ f3 ≠ [] := by
    intro he
    exact hpne (List.append_eq_nil.mp he).1
  have hstrip : pyStrip ⟨p.data ++ f3⟩ = ⟨p.data ++ f3⟩ := by
    apply String.ext
    show stripChars (p.data ++ f3) = p.data ++ f3
    apply stripChars_eq_of_all happne
    intro c hc
    exact isWordChar_not_space (hall c hc)
  have hne2 : (⟨p.data ++ f3⟩ : String) ≠ "" := by
    intro he
    have hd : p.data ++ f3 = ([] : List Char) := congrArg String.data he
    exact happne hd
  have huuid : uuidMatch (⟨p.data ++ f3⟩ : String).data = false := by
    apply uuidMatch_eq_false_of_no_dash
    intro c hc
    exact isWordChar_ne_dash (hall c hc)
  have hcont : (⟨p.data ++ f3⟩ : String).data.contains '_' = true :=
    List.elem_eq_true_of_mem (List.mem_append_left _ hu)
  unfold is_valid_tag
  rw [hstrip, if_neg hne2, if_neg (by rw [hskip]; exact Bool.false_ne_true),
      if_neg (by rw [hdig]; exact Bool.false_ne_true),
      if_neg (by rw [huuid]; exact Bool.false_ne_true)]
  rw [hcont]
  rfl

/-- Claim C9: formatting any raw string with a known tag prefix, when the
result is nonempty, always yields a string the classifier accepts. -/
theorem c9_roundtrip (raw p : String) (hp : p ∈ knownPfxs)
    (hne : format_tag_name raw p ≠ "") :
    is_valid_tag (format_tag_name raw p) none = true := by
  obtain ⟨heq, hf3⟩ := format_tag_name_shape raw p hne
  have hwords : ∀ c ∈ coreChars (stripChars raw.data) p.data, isWordChar c = true :=
    coreChars_words _ _
  rw [heq]
  revert hf3 hwords
  generalize coreChars (stripChars raw.data) p.data = f3
  intro hf3 hwords
  rcases (by simpa [knownPfxs] using hp :
      p = "COURSE_" ∨ p = "MODULE_" ∨ p = "UNIT_" ∨ p = "SOURCE_" ∨
      p = "DIFFICULTY_" ∨ p = "TOPIC_" ∨ p = "SUB_TOPIC_") with
    rfl | rfl | rfl | rfl | rfl | rfl | rfl
  · refine roundtrip_core _ f3 hf3 hwords (by decide) (by decide) (by decide) ?_ rfl
    apply contains_eq_false_of_not_mem
    intro hmem
    have hin0 : '_' ∈ (pyUpper ⟨"COURSE_".data ++ f3⟩).data :=
      List.mem_map.mpr ⟨'_', List.mem_append_left _ (by decide), by decide⟩
    rcases (by simpa [skip_values] using hmem :
        pyUpper ⟨"COURSE_".data ++ f3⟩ = "MULTIPLE_CHOICE" ∨
        pyUpper ⟨"COURSE_".data ++ f3⟩ = "ENGLISH" ∨
        pyUpper ⟨"COURSE_".data ++ f3⟩ = "MARKDOWN" ∨
        pyUpper ⟨"COURSE_".data ++ f3⟩ = "TEXT" ∨
        pyUpper ⟨"COURSE_".data ++ f3⟩ = "TRUE" ∨
        pyUpper ⟨"COURSE_".data ++ f3⟩ = "FALSE") with h | h | h | h | h | h
    · have hg : (pyUpper ⟨"COURSE_".data ++ f3⟩).data.getD 0 ' ' =
          "MULTIPLE_CHOICE".data.getD 0 ' ' :=
        congrArg (fun s : String => s.data.getD 0 ' ') h
      rw [show (pyUpper ⟨"COURSE_".data ++ f3⟩).data.getD 0 ' ' = 'C' from rfl] at hg
      exact absurd hg (by decide)
    all_goals (rw [h] at hin0; exact absurd hin0 (by decide))
  · refine roundtrip_core _ f3 hf3 hwords (by decide) (by decide) (by decide) ?_ rfl
    apply contains_eq_false_of_not_mem
    intro hmem
    have hin0 : '_' ∈ (pyUpper ⟨"MODULE_".data ++ f3⟩).data :=
      List.mem_map.mpr ⟨'_', List.mem_append_left _ (by decide), by decide⟩
    rcases (by simpa [skip_values] using hmem :
        pyUpper ⟨"MODULE_".data ++ f3⟩ = "MULTIPLE_CHOICE" ∨
        pyUpper ⟨"MODULE_".data ++ f3⟩ = "ENGLISH" ∨
        pyUpper ⟨"MODULE_".data ++ f3⟩ = "MARKDOWN" ∨
        pyUpper ⟨"MODULE_".data ++ f3⟩ = "TEXT" ∨
        pyUpper ⟨"MODULE_".data ++ f3⟩ = "TRUE" ∨
        pyUpper ⟨"MODULE_".data ++ f3⟩ = "FALSE") with h | h | h | h | h | h
    · have hg : (pyUpper ⟨"MODULE_".data ++ f3⟩).data.getD 1 ' ' =
          "MULTIPLE_CHOICE".data.getD 1 ' ' :=
        congrArg (fun s : String => s.data.getD 1 ' ') h
      rw [show (pyUpper ⟨"MODULE_".data ++ f3⟩).data.getD 1 ' ' = 'O' from rfl] at hg
      exact absurd hg (by decide)
    all_goals (rw [h] at hin0; exact absurd hin0 (by decide))
  · refine roundtrip_core _ f3 hf3 hwords (by decide) (by decide) (by decide) ?_ rfl
    apply contains_eq_false_of_not_mem
    intro hmem
    have hin0 : '_' ∈ (pyUpper ⟨"UNIT_".data ++ f3⟩).data :=
      List.mem_map.mpr ⟨'_', List.mem_append_left _ (by decide), by decide⟩
    rcases (by simpa [skip_values] using hmem :
        pyUpper ⟨"UNIT_".data ++ f3⟩ = "MULTIPLE_CHOICE" ∨
        pyUpper ⟨"UNIT_".data ++ f3⟩ = "ENGLISH" ∨
        pyUpper ⟨"UNIT_".data ++ f3⟩ = "MARKDOWN" ∨
        pyUpper ⟨"UNIT_".data ++ f3⟩ = "TEXT" ∨
        pyUpper ⟨"UNIT_".data ++ f3⟩ = "TRUE" ∨
        pyUpper ⟨"UNIT_".data ++ f3⟩ = "FALSE") with h | h | h | h | h | h
    · have hg : (pyUpper ⟨"UNIT_".data ++ f3⟩).data.getD 0 ' ' =
          "MULTIPLE_CHOICE".data.getD 0 ' ' :=
        congrArg (fun s : String => s.data.getD 0 ' ') h
      rw [show (pyUpper ⟨"UNIT_".data ++ f3⟩).data.getD 0 ' ' = 'U' from rfl] at hg
      exact absurd hg (by decide)
    all_goals (rw [h] at hin0; exact absurd hin0 (by decide))
  · refine roundtrip_core _ f3 hf3 hwords (by decide) (by decide) (by decide) ?_ rfl
    apply contains_eq_false_of_not_mem
    intro hmem
    have hin0 : '_' ∈ (pyUpper ⟨"SOURCE_".data ++ f3⟩).data :=
      List.mem_map.mpr ⟨'_', List.mem_append_left _ (by decide), by decide⟩
    rcases (by simpa [skip_values] using hmem :
        pyUpper ⟨"SOURCE_".data ++ f3⟩ = "MULTIPLE_CHOICE" ∨
        pyUpper ⟨"SOURCE_".data ++ f3⟩ = "ENGLISH" ∨
        pyUpper ⟨"SOURCE_".data ++ f3⟩ = "MARKDOWN" ∨
        pyUpper ⟨"SOURCE_".data ++ f3⟩ = "TEXT" ∨
        pyUpper ⟨"SOURCE_".data ++ f3⟩ = "TRUE" ∨
        pyUpper ⟨"SOURCE_".data ++ f3⟩ = "FALSE") with h | h | h | h | h | h
    · have hg : (pyUpper ⟨"SOURCE_".data ++ f3⟩).data.getD 0 ' ' =
          "MULTIPLE_CHOICE".data.getD 0 ' ' :=
        congrArg (fun s : String => s.data.getD 0 ' ') h
      rw [show (pyUpper ⟨"SOURCE_".data ++ f3⟩).data.getD 0 ' ' = 'S' from rfl] at hg
      exact absurd hg (by decide)
    all_goals (rw [h] at hin0; exact absurd hin0 (by decide))
  · refine roundtrip_core _ f3 hf3 hwords (by decide) (by decide) (by decide) ?_ rfl
    apply contains_eq_false_of_not_mem
    intro hmem
    have hin0 : '_' ∈ (pyUpper ⟨"DIFFICULTY_".data ++ f3⟩).data :=
      List.mem_map.mpr ⟨'_', List.mem_append_left _ (by decide), by decide⟩
    rcases (by simpa [skip_values] using hmem :
        pyUpper ⟨"DIFFICULTY_".data ++ f3⟩ = "MULTIPLE_CHOICE" ∨
        pyUpper ⟨"DIFFICULTY_".data ++ f3⟩ = "ENGLISH" ∨
        pyUpper ⟨"DIFFICULTY_".data ++ f3⟩ = "MARKDOWN" ∨
        pyUpper ⟨"DIFFICULTY_".data ++ f3⟩ = "TEXT" ∨
        pyUpper ⟨"DIFFICULTY_".data ++ f3⟩ = "TRUE" ∨
        pyUpper ⟨"DIFFICULTY_".data ++ f3⟩ = "FALSE") with h | h | h | h | h | h
    · have hg : (pyUpper ⟨"DIFFICULTY_".data ++ f3⟩).data.getD 0 ' ' =
          "MULTIPLE_CHOICE".data.getD 0 ' ' :=
        congrArg (fun s : String => s.data.getD 0 ' ') h
      rw [show (pyUpper ⟨"DIFFICULTY_".data ++ f3⟩).data.getD 0 ' ' = 'D' from rfl] at hg
      exact absurd hg (by decide)
    all_goals (rw [h] at hin0; exact absurd hin0 (by decide))
  · refine roundtrip_core _ f3 hf3 hwords (by decide) (by decide) (by decide) ?_ rfl
    apply contains_eq_false_of_not_mem
    intro hmem
    have hin0 : '_' ∈ (pyUpper ⟨"TOPIC_".data ++ f3⟩).data :=
      List.mem_map.mpr ⟨'_', List.mem_append_left _ (by decide), by decide⟩
    rcases (by simpa [skip_values] using hmem :
        pyUpper ⟨"TOPIC_".data ++ f3⟩ = "MULTIPLE_CHOICE" ∨
        pyUpper ⟨"TOPIC_".data ++ f3⟩ = "ENGLISH" ∨
        pyUpper ⟨"TOPIC_".data ++ f3⟩ = "MARKDOWN" ∨
        pyUpper ⟨"TOPIC_".data ++ f3⟩ = "TEXT" ∨
        pyUpper ⟨"TOPIC_".data ++ f3⟩ = "TRUE" ∨
        pyUpper ⟨"TOPIC_".data ++ f3⟩ = "FALSE") with h | h | h | h | h | h
    · have hg : (pyUpper ⟨"TOPIC_".data ++ f3⟩).data.getD 0 ' ' =
          "MULTIPLE_CHOICE".data.getD 0 ' ' :=
        congrArg (fun s : String => s.data.getD 0 ' ') h
      rw [show (pyUpper ⟨"TOPIC_".data ++ f3⟩).data.getD 0 ' ' = 'T' from rfl] at hg
      exact absurd hg (by decide)
    all_goals (rw [h] at hin0; exact absurd hin0 (by decide))
  · refine roundtrip_core _ f3 hf3 hwords (by decide) (by decide) (by decide) ?_ rfl
    apply contains_eq_false_of_not_mem
    intro hmem
    have hin0 : '_' ∈ (pyUpper ⟨"SUB_TOPIC_".data ++ f3⟩).data :=
      List.mem_map.mpr ⟨'_', List.mem_append_left _ (by decide), by decide⟩
    rcases (by simpa [skip_values] using hmem :
        pyUpper ⟨"SUB_TOPIC_".data ++ f3⟩ = "MULTIPLE_CHOICE" ∨
        pyUpper ⟨"SUB_TOPIC_".data ++ f3⟩ = "ENGLISH" ∨
        pyUpper ⟨"SUB_TOPIC_".data ++ f3⟩ = "MARKDOWN" ∨
        pyUpper ⟨"SUB_TOPIC_".data ++ f3⟩ = "TEXT" ∨
        pyUpper ⟨"SUB_TOPIC_".data ++ f3⟩ = "TRUE" ∨
        pyUpper ⟨"SUB_TOPIC_".data ++ f3⟩ = "FALSE") with h | h | h | h | h | h
    · have hg : (pyUpper ⟨"SUB_TOPIC_".data ++ f3⟩).data.getD 0 ' ' =
          "MULTIPLE_CHOICE".data.getD 0 ' ' :=
        congrArg (fun s : String => s.data.getD 0 ' ') h
      rw [show (pyUpper ⟨"SUB_TOPIC_".data ++ f3⟩).data.getD 0 ' ' = 'S' from rfl] at hg
      exact absurd hg (by decide)
    all_goals (rw [h] at hin0; exact absurd hin0 (by decide))

/-- Claim C9, witness. -/
theorem c9_roundtrip_witness :
    format_tag_name "React JS" "COURSE_" ≠ "" ∧
    is_valid_tag (format_tag_name "React JS" "COURSE_") none = true :=
  ⟨by decide, c9_roundtrip "React JS" "COURSE_" (by decide) (by decide)⟩

end QuestionTagValidator
